import Mathlib

/-!
Verification of the GeoLife trajectory extraction program (`data_extract.py`).

The program is embedded shallowly:

* Raw lines are `List Char`; Python `str.strip`, `str.split(',')` and the
  per-field trimming are modelled by `trimChars`, `splitOnComma`, `fieldsOf`.
* `datetime.strptime` restricted to the four candidate layouts used by
  `try_parse_datetime` is modelled by `matchToks`/`strptimeF`.  CPython's
  `_strptime` compiles `%Y` to exactly four digits and `%m %d %H %M %S` to
  one-or-two-digit numbers constrained to their calendar ranges, and requires
  the whole input string to be consumed; the `datetime` constructor then
  validates the day against the month length (leap years included).  All of
  that is reproduced here; a failed parse is `none` (Python: `ValueError`).
* Python `float(...)` applied to an already-stripped field is modelled by
  `pyFloat`, which recognises CPython's float-literal grammar (optional sign,
  digits with optional single underscores between digits, optional fractional
  part, optional exponent, or `inf`/`infinity`/`nan` case-insensitively) and
  returns the accepted literal itself as the parsed value (no arithmetic is
  ever performed on the parsed numbers, so the literal is a faithful
  representative); `none` models the `ValueError` raised on rejection.
* The per-line body of `parse_plt_file` is `parseLine`; the surrounding
  file loop with its `bad_lines` diagnostic sample is `stepLine` /
  `processLines`; the whole of `parse_plt_file` including the 6-line header
  skip and the outer `except Exception: return []` is `parse_plt_file` over a
  stream of events (`FileEv.line` for a line successfully read,
  `FileEv.ioError` for an I/O failure raised while reading).
* The finalization step of `process_geolife_dataset` (`df.sort_values(by=
  ['user_id', 'timestamp'])` followed by `to_csv`) is `finalizeDataset`.
  `sort_values` with a list of keys sorts with `numpy.lexsort`, a stable
  sort by the key tuple; it is modelled as a stable merge sort under the
  lexicographic comparison `recLe` on `(user_id, timestamp)`.
-/

namespace GeoLife

/-- Whitespace characters stripped by Python `str.strip()` (ASCII subset). -/
def isSpaceChar (c : Char) : Bool :=
  c = ' ' || c = '\t' || c = '\n' || c = '\r' || c = '\x0b' || c = '\x0c'

/-- Model of Python `str.strip()`. -/
def trimChars (l : List Char) : List Char :=
  ((l.dropWhile isSpaceChar).reverse.dropWhile isSpaceChar).reverse

/-- Model of Python `str.split(',')`. -/
def splitOnComma : List Char → List (List Char)
  | [] => [[]]
  | c :: rest =>
    if c = ',' then [] :: splitOnComma rest
    else
      match splitOnComma rest with
      | [] => [[c]]
      | p :: ps => (c :: p) :: ps

/-- Source line 44: `parts = [p.strip() for p in raw.split(',') if p.strip() != ""]`
applied to `raw = line.strip()`. -/
def fieldsOf (line : List Char) : List (List Char) :=
  ((splitOnComma (trimChars line)).map trimChars).filter (fun p => !p.isEmpty)

/-! ### The `datetime.strptime` model -/

/-- Numeric value of a decimal digit character. -/
def digitVal (c : Char) : Nat := c.toNat - 48

/-- Value of a string of decimal digits. -/
def digitsToNat (l : List Char) : Nat := l.foldl (fun a c => a * 10 + digitVal c) 0

/-- Split off the maximal leading run of decimal digits. -/
def digitRun : List Char → List Char × List Char
  | [] => ([], [])
  | c :: rest =>
    if c.isDigit then
      let p := digitRun rest
      (c :: p.1, p.2)
    else ([], c :: rest)

/-- A parsed calendar instant with second resolution (Python `datetime`). -/
structure DateTime where
  year : Nat
  month : Nat
  day : Nat
  hour : Nat
  minute : Nat
  second : Nat
deriving DecidableEq, Repr

/-- Field values accumulated while matching a format; the initial values are
CPython `_strptime`'s defaults (year 1900, month 1, day 1, midnight). -/
structure Vals where
  y : Nat
  mo : Nat
  d : Nat
  h : Nat
  mi : Nat
  se : Nat
deriving DecidableEq, Repr

/-- The `_strptime` default field values. -/
def valsDefault : Vals := ⟨1900, 1, 1, 0, 0, 0⟩

/-- The numeric directives appearing in the four candidate formats. -/
inductive Field
  | Y
  | Mo
  | D
  | H
  | Mi
  | Se
deriving DecidableEq, Repr

/-- Digit-run lengths accepted by each directive's regex in CPython
(`%Y` is exactly `\d\d\d\d`; the others accept one or two digits). -/
def fieldLenOK : Field → Nat → Bool
  | .Y, n => n = 4
  | _, n => n = 1 || n = 2

/-- Value ranges enforced by each directive's regex in CPython. -/
def fieldValOK : Field → Nat → Bool
  | .Y, v => v ≤ 9999
  | .Mo, v => 1 ≤ v && v ≤ 12
  | .D, v => 1 ≤ v && v ≤ 31
  | .H, v => v ≤ 23
  | .Mi, v => v ≤ 59
  | .Se, v => v ≤ 59

/-- Record a matched directive value. -/
def setField : Field → Nat → Vals → Vals
  | .Y, v, s => { s with y := v }
  | .Mo, v, s => { s with mo := v }
  | .D, v, s => { s with d := v }
  | .H, v, s => { s with h := v }
  | .Mi, v, s => { s with mi := v }
  | .Se, v, s => { s with se := v }

/-- One token of a compiled format string: a literal character or a numeric
directive. -/
inductive Tok
  | lit (c : Char)
  | num (f : Field)
deriving DecidableEq, Repr

/-- Match a compiled format against an input string.  The whole input must be
consumed (CPython raises `ValueError` when `found.end()` is short of the
string's length).  In all four candidate formats every numeric directive is
followed by a non-digit literal or the end of the string, so the regex engine
must hand the entire maximal digit run to the directive, which is what
`digitRun` does. -/
def matchToks : List Tok → List Char → Option Vals
  | [], cs => if cs.isEmpty then some valsDefault else none
  | Tok.lit _ :: _, [] => none
  | Tok.lit c :: ts, x :: xs => if x = c then matchToks ts xs else none
  | Tok.num f :: ts, cs =>
    if fieldLenOK f (digitRun cs).1.length && fieldValOK f (digitsToNat (digitRun cs).1) then
      (matchToks ts (digitRun cs).2).map (setField f (digitsToNat (digitRun cs).1))
    else none

/-- Gregorian leap-year rule, as used by Python `datetime`. -/
def isLeapYear (y : Nat) : Bool := y % 4 = 0 && (y % 100 ≠ 0 || y % 400 = 0)

/-- Number of days in a month, as validated by the Python `datetime`
constructor. -/
def daysInMonth (y m : Nat) : Nat :=
  if m = 2 then (if isLeapYear y then 29 else 28)
  else if m = 4 || m = 6 || m = 9 || m = 11 then 30
  else 31

/-- The validation performed by the `datetime` constructor on the matched
field values (`MINYEAR = 1`, `MAXYEAR = 9999`, day within the month). -/
def mkDateTime (v : Vals) : Option DateTime :=
  if 1 ≤ v.y ∧ v.y ≤ 9999 ∧ 1 ≤ v.mo ∧ v.mo ≤ 12 ∧ 1 ≤ v.d ∧
      v.d ≤ daysInMonth v.y v.mo ∧ v.h ≤ 23 ∧ v.mi ≤ 59 ∧ v.se ≤ 59 then
    some ⟨v.y, v.mo, v.d, v.h, v.mi, v.se⟩
  else none

/-- Model of `datetime.strptime(s, fmt)` for one compiled format. -/
def strptimeF (fmt : List Tok) (s : List Char) : Option DateTime :=
  (matchToks fmt s).bind mkDateTime

/-- Compiled `"%Y-%m-%d %H:%M:%S"`. -/
def fmtYmdHMS : List Tok :=
  [.num .Y, .lit '-', .num .Mo, .lit '-', .num .D, .lit ' ',
   .num .H, .lit ':', .num .Mi, .lit ':', .num .Se]

/-- Compiled `"%Y/%m/%d %H:%M:%S"`. -/
def fmtYmdHMSslash : List Tok :=
  [.num .Y, .lit '/', .num .Mo, .lit '/', .num .D, .lit ' ',
   .num .H, .lit ':', .num .Mi, .lit ':', .num .Se]

/-- Compiled `"%d-%m-%Y %H:%M:%S"`. -/
def fmtDmyHMS : List Tok :=
  [.num .D, .lit '-', .num .Mo, .lit '-', .num .Y, .lit ' ',
   .num .H, .lit ':', .num .Mi, .lit ':', .num .Se]

/-- Compiled `"%Y-%m-%d %H:%M"`. -/
def fmtYmdHM : List Tok :=
  [.num .Y, .lit '-', .num .Mo, .lit '-', .num .D, .lit ' ',
   .num .H, .lit ':', .num .Mi]

/-- Source lines 6-11: the `candidates` list of `try_parse_datetime`, in
order. -/
def candidates : List (List Tok) := [fmtYmdHMS, fmtYmdHMSslash, fmtDmyHMS, fmtYmdHM]

/-- Source lines 13-17: the loop over `candidates`; the first format that
parses wins. -/
def firstParse : List (List Tok) → List Char → Option DateTime
  | [], _ => none
  | f :: fs, ts =>
    match strptimeF f ts with
    | some v => some v
    | none => firstParse fs ts

/-- Source lines 5-18: `try_parse_datetime(date_str, time_str)`.  The
concatenation `f"{date_str} {time_str}"` is tried against the four candidate
formats in order; `none` models the final `raise ValueError`. -/
def try_parse_datetime (date_str time_str : List Char) : Option DateTime :=
  firstParse candidates (date_str ++ ' ' :: time_str)

/-! ### The Python `float(...)` model -/

/-- Consume further digits, allowing a single underscore between digits
(CPython's numeric-literal underscore rule). -/
def eatMoreDigits : List Char → List Char
  | '_' :: c :: rest => if c.isDigit then eatMoreDigits rest else '_' :: c :: rest
  | c :: rest => if c.isDigit then eatMoreDigits rest else c :: rest
  | [] => []

/-- Consume a nonempty digit group (with optional internal underscores);
`none` when the input does not start with a digit. -/
def eatDigits (s : List Char) : Option (List Char) :=
  match s with
  | c :: rest => if c.isDigit then some (eatMoreDigits rest) else none
  | [] => none

/-- Drop one optional leading sign. -/
def dropSign : List Char → List Char
  | '+' :: r => r
  | '-' :: r => r
  | r => r

/-- Accept an optional exponent part and then the end of the string. -/
def expTail (s : List Char) : Bool :=
  match s with
  | [] => true
  | e :: rest =>
    if e = 'e' || e = 'E' then
      match eatDigits (dropSign rest) with
      | some r => r.isEmpty
      | none => false
    else false

/-- Accept a decimal mantissa (digits, `digits.`, `digits.digits` or
`.digits`) followed by an optional exponent. -/
def mantissaThen (s : List Char) : Bool :=
  match s with
  | '.' :: r =>
    match eatDigits r with
    | some r2 => expTail r2
    | none => false
  | _ =>
    match eatDigits s with
    | none => false
    | some r =>
      match r with
      | '.' :: r2 =>
        match eatDigits r2 with
        | some r3 => expTail r3
        | none => expTail r2
      | _ => expTail r

/-- The special values accepted by `float`, case-insensitively. -/
def isInfNan (s : List Char) : Bool :=
  let t := s.map Char.toLower
  t = "inf".data || t = "infinity".data || t = "nan".data

/-- Whether `float(s)` succeeds on the string `s` (after Python's own
whitespace stripping). -/
def isFloatLit (s : List Char) : Bool :=
  let body := dropSign (trimChars s)
  isInfNan body || mantissaThen body

/-- Model of Python `float(s)`: `none` is the `ValueError`; on success the
parsed number is represented by the accepted (stripped) literal itself. -/
def pyFloat (s : List Char) : Option (List Char) :=
  if isFloatLit s then some (trimChars s) else none

/-! ### The line parser -/

/-- Classification of a rejected line, following which operation of the
per-line body failed (the spec's taxonomy: empty line, insufficient fields,
unparseable coordinate, unparseable altitude, unparseable timestamp). -/
inductive SkipReason
  | emptyLine
  | insufficientFields
  | badCoordinate
  | badAltitude
  | badTimestamp
deriving DecidableEq, Repr

/-- One parsed point record (the dict appended at source lines 73-79). -/
structure PointRecord where
  user_id : String
  latitude : List Char
  longitude : List Char
  altitude : List Char
  timestamp : DateTime
deriving DecidableEq, Repr

/-- Outcome of the per-line body: a record or a classified skip. -/
inductive Outcome
  | record (r : PointRecord)
  | skip (reason : SkipReason)
deriving DecidableEq, Repr

/-- Source lines 59-65: the altitude extraction with its fallback.  Python's
`parts[-3]` is `parts[len - 3]` (always in bounds here since the caller
guarantees at least 6 fields). -/
def altitudeOf (parts : List (List Char)) : Option (List Char) :=
  if parts.length > 3 then
    match pyFloat (parts.getD 3 []) with
    | some a => some a
    | none => pyFloat (parts.getD (parts.length - 3) [])
  else pyFloat (parts.getD (parts.length - 3) [])

/-- Source lines 38-84: the per-line body of `parse_plt_file`.  Every `float`
or `try_parse_datetime` failure is a `ValueError` caught at line 80 and
turned into a skip; the function is total. -/
def parseLine (line : List Char) (user_id : String) : Outcome :=
  let raw := trimChars line
  if raw.isEmpty then .skip .emptyLine
  else
    let parts := fieldsOf line
    if parts.length < 6 then .skip .insufficientFields
    else
      match pyFloat (parts.getD 0 []) with
      | none => .skip .badCoordinate
      | some latitude =>
        match pyFloat (parts.getD 1 []) with
        | none => .skip .badCoordinate
        | some longitude =>
          match altitudeOf parts with
          | none => .skip .badAltitude
          | some altitude =>
            match try_parse_datetime (parts.getD (parts.length - 2) [])
                (parts.getD (parts.length - 1) []) with
            | none => .skip .badTimestamp
            | some timestamp =>
              .record ⟨user_id, latitude, longitude, altitude, timestamp⟩

/-! ### The per-file loop -/

/-- Mutable state of `parse_plt_file`'s loop: `data`, `bad_lines`,
`total_lines`, `skipped`.  A `bad_lines` entry is represented by the
offending (stripped) line; the `"  <-- {ve}"` message suffix appended at
source line 83 carries no further information about the line and is elided. -/
structure FileState where
  data : List PointRecord
  badLines : List (List Char)
  totalLines : Nat
  skipped : Nat
deriving DecidableEq, Repr

/-- The state at loop entry. -/
def initState : FileState := ⟨[], [], 0, 0⟩

/-- Source lines 49-50 and 82-83: append to `bad_lines` only while it holds
fewer than 5 entries. -/
def pushBadLine (s : FileState) (raw : List Char) : FileState :=
  if s.badLines.length < 5 then { s with badLines := s.badLines ++ [raw] } else s

/-- One iteration of the `for line in f` loop (source lines 36-84).  Empty
lines are counted but never sampled; every other skip appends the stripped
line to `bad_lines` (subject to the cap). -/
def stepLine (user_id : String) (s : FileState) (line : List Char) : FileState :=
  let s1 := { s with totalLines := s.totalLines + 1 }
  match parseLine line user_id with
  | .record r => { s1 with data := s1.data ++ [r] }
  | .skip .emptyLine => { s1 with skipped := s1.skipped + 1 }
  | .skip _ => pushBadLine { s1 with skipped := s1.skipped + 1 } (trimChars line)

/-- The whole per-line loop over the lines remaining after the header. -/
def processLines (user_id : String) (lines : List (List Char)) : FileState :=
  lines.foldl (stepLine user_id) initState

/-- One event produced while reading a file: a successfully read line, or an
exception raised by the underlying I/O (anything other than the per-line
`ValueError`, which never escapes the loop body). -/
inductive FileEv
  | line (l : List Char)
  | ioError
deriving DecidableEq, Repr

/-- Source lines 30-34: `for _ in range(6): next(f)` with `StopIteration`
caught (short files are fine); an I/O error while reading a header line
propagates (`none`). -/
def dropHeader : Nat → List FileEv → Option (List FileEv)
  | 0, evs => some evs
  | _ + 1, [] => some []
  | n + 1, FileEv.line _ :: evs => dropHeader n evs
  | _ + 1, FileEv.ioError :: _ => none

/-- The main loop consuming the remaining events; an I/O error propagates
(`none`), abandoning the state accumulated so far. -/
def runEvents (user_id : String) : FileState → List FileEv → Option FileState
  | s, [] => some s
  | s, FileEv.line l :: evs => runEvents user_id (stepLine user_id s l) evs
  | _, FileEv.ioError :: _ => none

/-- Source lines 20-97: `parse_plt_file`.  The outer
`except Exception: return []` (source lines 86-88) catches any propagated
error and yields the empty list. -/
def parse_plt_file (user_id : String) (evs : List FileEv) : List PointRecord :=
  match dropHeader 6 evs with
  | none => []
  | some rest =>
    match runEvents user_id initState rest with
    | none => []
    | some s => s.data

/-! ### Finalization of the collector -/

/-- The sort key component for timestamps: chronological order is the
lexicographic order on these component lists. -/
def dtKey (t : DateTime) : List Nat :=
  [t.year, t.month, t.day, t.hour, t.minute, t.second]

/-- Lexicographic non-strict order on lists of naturals. -/
def natListLe : List Nat → List Nat → Bool
  | [], _ => true
  | _ :: _, [] => false
  | a :: as, b :: bs => if a < b then true else if b < a then false else natListLe as bs

/-- The comparison used by `df.sort_values(by=['user_id', 'timestamp'])`:
lexicographic on the key pair, strings compared as Python compares them
(code-point lexicographic). -/
def recLe (a b : PointRecord) : Bool :=
  if a.user_id < b.user_id then true
  else if b.user_id < a.user_id then false
  else natListLe (dtKey a.timestamp) (dtKey b.timestamp)

/-- The sort performed at source line 134.  `sort_values` with two keys
sorts with `numpy.lexsort`, which is stable; merge sort is the model. -/
def sortRecords (data : List PointRecord) : List PointRecord :=
  data.mergeSort recLe

/-- The header row written by `to_csv` (the dict keys, in insertion order). -/
def csvHeader : List String :=
  ["user_id", "latitude", "longitude", "altitude", "timestamp"]

/-- The persisted artifact: the header row and one row per record. -/
structure CsvOut where
  header : List String
  rows : List PointRecord
deriving DecidableEq, Repr

/-- Source lines 131-138: if `all_data` is nonempty, sort and persist;
otherwise produce nothing. -/
def finalizeDataset (all_data : List PointRecord) : Option CsvOut :=
  if all_data.isEmpty then none
  else some ⟨csvHeader, sortRecords all_data⟩

/-! ### Helper lemmas about the line parser -/

lemma fieldsOf_of_trim_empty (line : List Char) (h : (trimChars line).isEmpty = true) :
    fieldsOf line = [] := by
  have h0 : trimChars line = [] := by simpa using h
  unfold fieldsOf
  rw [h0]
  rfl

lemma trim_not_empty {line : List Char} (h6 : ¬(fieldsOf line).length < 6) :
    (trimChars line).isEmpty = false := by
  cases h : (trimChars line).isEmpty
  · rfl
  · exact absurd (by rw [fieldsOf_of_trim_empty line h]; simp) h6

lemma parseLine_skip_badCoordinate_lat (line : List Char) (uid : String)
    (h6 : ¬(fieldsOf line).length < 6)
    (hlat : pyFloat ((fieldsOf line).getD 0 []) = none) :
    parseLine line uid = Outcome.skip SkipReason.badCoordinate := by
  unfold parseLine
  simp only [trim_not_empty h6, Bool.false_eq_true, if_false, if_neg h6, hlat]

lemma parseLine_skip_badCoordinate_lon (line : List Char) (uid : String) (lat : List Char)
    (h6 : ¬(fieldsOf line).length < 6)
    (hlat : pyFloat ((fieldsOf line).getD 0 []) = some lat)
    (hlon : pyFloat ((fieldsOf line).getD 1 []) = none) :
    parseLine line uid = Outcome.skip SkipReason.badCoordinate := by
  unfold parseLine
  simp only [trim_not_empty h6, Bool.false_eq_true, if_false, if_neg h6, hlat, hlon]

lemma parseLine_skip_badAltitude (line : List Char) (uid : String) (lat lon : List Char)
    (h6 : ¬(fieldsOf line).length < 6)
    (hlat : pyFloat ((fieldsOf line).getD 0 []) = some lat)
    (hlon : pyFloat ((fieldsOf line).getD 1 []) = some lon)
    (halt : altitudeOf (fieldsOf line) = none) :
    parseLine line uid = Outcome.skip SkipReason.badAltitude := by
  unfold parseLine
  simp only [trim_not_empty h6, Bool.false_eq_true, if_false, if_neg h6, hlat, hlon, halt]

lemma parseLine_skip_badTimestamp (line : List Char) (uid : String) (lat lon alt : List Char)
    (h6 : ¬(fieldsOf line).length < 6)
    (hlat : pyFloat ((fieldsOf line).getD 0 []) = some lat)
    (hlon : pyFloat ((fieldsOf line).getD 1 []) = some lon)
    (halt : altitudeOf (fieldsOf line) = some alt)
    (hts : try_parse_datetime ((fieldsOf line).getD ((fieldsOf line).length - 2) [])
        ((fieldsOf line).getD ((fieldsOf line).length - 1) []) = none) :
    parseLine line uid = Outcome.skip SkipReason.badTimestamp := by
  unfold parseLine
  simp only [trim_not_empty h6, Bool.false_eq_true, if_false, if_neg h6, hlat, hlon, halt, hts]

lemma parseLine_record_eq (line : List Char) (uid : String) (lat lon alt : List Char)
    (ts : DateTime)
    (h6 : ¬(fieldsOf line).length < 6)
    (hlat : pyFloat ((fieldsOf line).getD 0 []) = some lat)
    (hlon : pyFloat ((fieldsOf line).getD 1 []) = some lon)
    (halt : altitudeOf (fieldsOf line) = some alt)
    (hts : try_parse_datetime ((fieldsOf line).getD ((fieldsOf line).length - 2) [])
        ((fieldsOf line).getD ((fieldsOf line).length - 1) []) = some ts) :
    parseLine line uid = Outcome.record ⟨uid, lat, lon, alt, ts⟩ := by
  unfold parseLine
  simp only [trim_not_empty h6, Bool.false_eq_true, if_false, if_neg h6, hlat, hlon, halt, hts]

lemma parseLine_record_altitude (line : List Char) (uid : String) (r : PointRecord)
    (h : parseLine line uid = Outcome.record r) :
    altitudeOf (fieldsOf line) = some r.altitude := by
  by_cases h6 : (fieldsOf line).length < 6
  · cases he : (trimChars line).isEmpty
    · rw [show parseLine line uid = Outcome.skip SkipReason.insufficientFields by
        unfold parseLine; simp only [he, Bool.false_eq_true, if_false, if_pos h6]] at h
      exact Outcome.noConfusion h
    · rw [show parseLine line uid = Outcome.skip SkipReason.emptyLine by
        unfold parseLine; simp only [he, if_true]] at h
      exact Outcome.noConfusion h
  · cases hlat : pyFloat ((fieldsOf line).getD 0 []) with
    | none =>
      rw [parseLine_skip_badCoordinate_lat line uid h6 hlat] at h
      exact Outcome.noConfusion h
    | some lat =>
      cases hlon : pyFloat ((fieldsOf line).getD 1 []) with
      | none =>
        rw [parseLine_skip_badCoordinate_lon line uid lat h6 hlat hlon] at h
        exact Outcome.noConfusion h
      | some lon =>
        cases halt : altitudeOf (fieldsOf line) with
        | none =>
          rw [parseLine_skip_badAltitude line uid lat lon h6 hlat hlon halt] at h
          exact Outcome.noConfusion h
        | some alt =>
          cases hts : try_parse_datetime ((fieldsOf line).getD ((fieldsOf line).length - 2) [])
              ((fieldsOf line).getD ((fieldsOf line).length - 1) []) with
          | none =>
            rw [parseLine_skip_badTimestamp line uid lat lon alt h6 hlat hlon halt hts] at h
            exact Outcome.noConfusion h
          | some ts =>
            rw [parseLine_record_eq line uid lat lon alt ts h6 hlat hlon halt hts] at h
            cases h
            simp only

/-- Claim C1: the per-line parser is total — every raw line is classified as
a record or a skip — and each numeric-parse or timestamp-parse failure in
the extraction stage yields the corresponding skip, never an escaping
exception. -/
theorem parse_outcome_classified :
    (∀ line uid, (∃ r, parseLine line uid = Outcome.record r) ∨
      (∃ s, parseLine line uid = Outcome.skip s))
    ∧ (∀ line uid, ¬(fieldsOf line).length < 6 →
        pyFloat ((fieldsOf line).getD 0 []) = none →
        parseLine line uid = Outcome.skip SkipReason.badCoordinate)
    ∧ (∀ line uid lat, ¬(fieldsOf line).length < 6 →
        pyFloat ((fieldsOf line).getD 0 []) = some lat →
        pyFloat ((fieldsOf line).getD 1 []) = none →
        parseLine line uid = Outcome.skip SkipReason.badCoordinate)
    ∧ (∀ line uid lat lon, ¬(fieldsOf line).length < 6 →
        pyFloat ((fieldsOf line).getD 0 []) = some lat →
        pyFloat ((fieldsOf line).getD 1 []) = some lon →
        altitudeOf (fieldsOf line) = none →
        parseLine line uid = Outcome.skip SkipReason.badAltitude)
    ∧ (∀ line uid lat lon alt, ¬(fieldsOf line).length < 6 →
        pyFloat ((fieldsOf line).getD 0 []) = some lat →
        pyFloat ((fieldsOf line).getD 1 []) = some lon →
        altitudeOf (fieldsOf line) = some alt →
        try_parse_datetime ((fieldsOf line).getD ((fieldsOf line).length - 2) [])
          ((fieldsOf line).getD ((fieldsOf line).length - 1) []) = none →
        parseLine line uid = Outcome.skip SkipReason.badTimestamp) := by
  refine ⟨?_, parseLine_skip_badCoordinate_lat, parseLine_skip_badCoordinate_lon,
    parseLine_skip_badAltitude, parseLine_skip_badTimestamp⟩
  intro line uid
  cases h : parseLine line uid with
  | record r => exact Or.inl ⟨r, rfl⟩
  | skip s => exact Or.inr ⟨s, rfl⟩

/-- Witness for C1 at concrete inputs: a non-numeric latitude and an
unrecognized timestamp each yield the corresponding skip. -/
theorem parse_outcome_classified_witness :
    parseLine "abc,1.0,0,10,2008-10-23,02:53:04".data "007" =
      Outcome.skip SkipReason.badCoordinate
    ∧ parseLine "39.9,116.3,0,100,2008.10.23,02-53-04".data "007" =
      Outcome.skip SkipReason.badTimestamp :=
  ⟨parse_outcome_classified.2.1 _ "007" (by decide) (by decide),
   parse_outcome_classified.2.2.2.2 _ "007" "39.9".data "116.3".data "100".data
     (by decide) (by decide) (by decide) (by decide) (by decide)⟩

/-- Claim C3: a successful parse takes its altitude from the code's fallback
chain (`field[3]` if more than 3 fields and it parses, else `field[-3]`);
in particular on a 7-field line whose `field[3]` is non-numeric the altitude
is the parse of `field[4] = field[-3]`. -/
theorem altitude_fallback :
    (∀ line uid r, parseLine line uid = Outcome.record r →
      altitudeOf (fieldsOf line) = some r.altitude)
    ∧ (∀ line uid r, (fieldsOf line).length = 7 →
        pyFloat ((fieldsOf line).getD 3 []) = none →
        parseLine line uid = Outcome.record r →
        pyFloat ((fieldsOf line).getD 4 []) = some r.altitude) := by
  refine ⟨parseLine_record_altitude, ?_⟩
  intro line uid r hlen h3 hrec
  have h := parseLine_record_altitude line uid r hrec
  unfold altitudeOf at h
  rw [if_pos (by omega), h3, hlen] at h
  exact h

/-- Witness for C3: a concrete 7-field line with non-numeric `field[3]` and
numeric `field[-3]` parses to a record whose altitude is `field[-3]`. -/
theorem altitude_fallback_witness :
    pyFloat ((fieldsOf "39.9,116.3,0,abc,155.5,2008-10-23,02:53:04".data).getD 4 []) =
      some (PointRecord.altitude
        ⟨"007", "39.9".data, "116.3".data, "155.5".data, ⟨2008, 10, 23, 2, 53, 4⟩⟩) :=
  altitude_fallback.2 "39.9,116.3,0,abc,155.5,2008-10-23,02:53:04".data "007"
    ⟨"007", "39.9".data, "116.3".data, "155.5".data, ⟨2008, 10, 23, 2, 53, 4⟩⟩
    (by decide) (by decide) (by decide)

/-- Counterexample to claim C7 as stated: a whitespace-only line has fewer
than 6 fields, yet the code skips it with the empty-line classification
(before the field-count check, and without sampling it into `bad_lines`),
not with reason insufficient_fields. -/
theorem insufficient_fields_counterexample :
    (fieldsOf "   ".data).length < 6
    ∧ parseLine "   ".data "000" ≠ Outcome.skip SkipReason.insufficientFields
    ∧ parseLine "   ".data "000" = Outcome.skip SkipReason.emptyLine := by
  refine ⟨by decide, by decide, by decide⟩

/-- Claim C7 (amended): a raw line whose trimmed content is nonempty and
whose field count is below 6 is skipped with reason insufficient_fields; a
line that trims to empty is skipped as an empty line; in neither case is a
Point Record produced. -/
theorem insufficient_fields_skip :
    ∀ line uid, (fieldsOf line).length < 6 →
      ((trimChars line).isEmpty = true → parseLine line uid = Outcome.skip SkipReason.emptyLine)
      ∧ ((trimChars line).isEmpty = false →
          parseLine line uid = Outcome.skip SkipReason.insufficientFields)
      ∧ ∀ r, parseLine line uid ≠ Outcome.record r := by
  intro line uid h
  have hempty : (trimChars line).isEmpty = true →
      parseLine line uid = Outcome.skip SkipReason.emptyLine := by
    intro he
    unfold parseLine
    simp only [he, if_true]
  have hfull : (trimChars line).isEmpty = false →
      parseLine line uid = Outcome.skip SkipReason.insufficientFields := by
    intro he
    unfold parseLine
    simp only [he, Bool.false_eq_true, if_false, if_pos h]
  refine ⟨hempty, hfull, ?_⟩
  intro r hr
  cases he : (trimChars line).isEmpty
  · rw [hfull he] at hr
    exact Outcome.noConfusion hr
  · rw [hempty he] at hr
    exact Outcome.noConfusion hr

/-- Witness for C7 (amended): a line with exactly 5 comma-separated
non-empty fields is skipped with reason insufficient_fields. -/
theorem insufficient_fields_skip_witness :
    parseLine "39.9,116.3,0,100,2008-10-23".data "007" =
      Outcome.skip SkipReason.insufficientFields :=
  (insufficient_fields_skip "39.9,116.3,0,100,2008-10-23".data "007" (by decide)).2.1
    (by decide)

/-- Claim C10: under the parser's own field-count guard (at least 6 fields)
the `3`-or-fewer-fields altitude branch is unreachable and every positional
access of the extraction stage — indices 0, 1, 3 and the Python negative
indices `-3`, `-2`, `-1` — is in bounds. -/
theorem extraction_in_bounds :
    ∀ line, ¬(fieldsOf line).length < 6 →
      ¬((fieldsOf line).length ≤ 3)
      ∧ 0 < (fieldsOf line).length
      ∧ 1 < (fieldsOf line).length
      ∧ 3 < (fieldsOf line).length
      ∧ 3 ≤ (fieldsOf line).length
      ∧ (fieldsOf line).length - 3 < (fieldsOf line).length
      ∧ (fieldsOf line).length - 2 < (fieldsOf line).length
      ∧ (fieldsOf line).length - 1 < (fieldsOf line).length
      ∧ altitudeOf (fieldsOf line) =
          (match pyFloat ((fieldsOf line).getD 3 []) with
           | some a => some a
           | none => pyFloat ((fieldsOf line).getD ((fieldsOf line).length - 3) [])) := by
  intro line h6
  refine ⟨by omega, by omega, by omega, by omega, by omega, by omega, by omega, by omega, ?_⟩
  unfold altitudeOf
  rw [if_pos (by omega)]

/-- Witness for C10 at a concrete 6-field line. -/
theorem extraction_in_bounds_witness :
    ¬((fieldsOf "39.9,116.3,0,100,2008-10-23,02:53:04".data).length ≤ 3)
    ∧ 0 < (fieldsOf "39.9,116.3,0,100,2008-10-23,02:53:04".data).length
    ∧ 1 < (fieldsOf "39.9,116.3,0,100,2008-10-23,02:53:04".data).length
    ∧ 3 < (fieldsOf "39.9,116.3,0,100,2008-10-23,02:53:04".data).length
    ∧ 3 ≤ (fieldsOf "39.9,116.3,0,100,2008-10-23,02:53:04".data).length
    ∧ (fieldsOf "39.9,116.3,0,100,2008-10-23,02:53:04".data).length - 3 <
        (fieldsOf "39.9,116.3,0,100,2008-10-23,02:53:04".data).length
    ∧ (fieldsOf "39.9,116.3,0,100,2008-10-23,02:53:04".data).length - 2 <
        (fieldsOf "39.9,116.3,0,100,2008-10-23,02:53:04".data).length
    ∧ (fieldsOf "39.9,116.3,0,100,2008-10-23,02:53:04".data).length - 1 <
        (fieldsOf "39.9,116.3,0,100,2008-10-23,02:53:04".data).length
    ∧ altitudeOf (fieldsOf "39.9,116.3,0,100,2008-10-23,02:53:04".data) =
        (match pyFloat ((fieldsOf "39.9,116.3,0,100,2008-10-23,02:53:04".data).getD 3 []) with
         | some a => some a
         | none => pyFloat ((fieldsOf "39.9,116.3,0,100,2008-10-23,02:53:04".data).getD
             ((fieldsOf "39.9,116.3,0,100,2008-10-23,02:53:04".data).length - 3) [])) :=
  extraction_in_bounds "39.9,116.3,0,100,2008-10-23,02:53:04".data (by decide)

/-! ### The diagnostic sample (claim C8) -/

lemma pushBadLine_badLines_le (s : FileState) (raw : List Char)
    (h : s.badLines.length ≤ 5) : (pushBadLine s raw).badLines.length ≤ 5 := by
  unfold pushBadLine
  split
  · simp only [List.length_append, List.length_cons, List.length_nil]
    omega
  · exact h

lemma pushBadLine_extend (s : FileState) (raw : List Char) :
    (pushBadLine s raw).badLines = s.badLines
    ∨ ∃ e, (pushBadLine s raw).badLines = s.badLines ++ [e] := by
  unfold pushBadLine
  split
  · exact Or.inr ⟨raw, rfl⟩
  · exact Or.inl rfl

lemma stepLine_badLines_le (uid : String) (s : FileState) (l : List Char)
    (h : s.badLines.length ≤ 5) : (stepLine uid s l).badLines.length ≤ 5 := by
  unfold stepLine
  cases hp : parseLine l uid with
  | record r => exact h
  | skip reason =>
    cases reason with
    | emptyLine => exact h
    | insufficientFields => exact pushBadLine_badLines_le _ _ h
    | badCoordinate => exact pushBadLine_badLines_le _ _ h
    | badAltitude => exact pushBadLine_badLines_le _ _ h
    | badTimestamp => exact pushBadLine_badLines_le _ _ h

lemma stepLine_badLines_extend (uid : String) (s : FileState) (l : List Char) :
    (stepLine uid s l).badLines = s.badLines
    ∨ ∃ e, (stepLine uid s l).badLines = s.badLines ++ [e] := by
  unfold stepLine
  cases hp : parseLine l uid with
  | record r => exact Or.inl rfl
  | skip reason =>
    cases reason with
    | emptyLine => exact Or.inl rfl
    | insufficientFields => exact pushBadLine_extend _ _
    | badCoordinate => exact pushBadLine_extend _ _
    | badAltitude => exact pushBadLine_extend _ _
    | badTimestamp => exact pushBadLine_extend _ _

lemma foldl_badLines_le (uid : String) :
    ∀ (lines : List (List Char)) (s : FileState), s.badLines.length ≤ 5 →
      (List.foldl (stepLine uid) s lines).badLines.length ≤ 5 := by
  intro lines
  induction lines with
  | nil => intro s h; exact h
  | cons l rest ih =>
    intro s h
    exact ih (stepLine uid s l) (stepLine_badLines_le uid s l h)

lemma foldl_badLines_extend (uid : String) :
    ∀ (more : List (List Char)) (s : FileState),
      ∃ tail, s.badLines ++ tail = (List.foldl (stepLine uid) s more).badLines := by
  intro more
  induction more with
  | nil => intro s; exact ⟨[], List.append_nil _⟩
  | cons l rest ih =>
    intro s
    obtain ⟨t, ht⟩ := ih (stepLine uid s l)
    rcases stepLine_badLines_extend uid s l with he | ⟨e, he⟩
    · refine ⟨t, ?_⟩
      rw [List.foldl_cons, ← he]
      exact ht
    · refine ⟨e :: t, ?_⟩
      rw [List.foldl_cons, ← ht, he]
      simp

/-- Claim C8: the per-file `bad_lines` diagnostic sample never exceeds 5
entries, and it is append-only: processing further lines only ever extends
it on the right. -/
theorem bad_lines_sample_bounded :
    ∀ uid lines, (processLines uid lines).badLines.length ≤ 5
    ∧ ∀ more, ∃ tail,
        (processLines uid lines).badLines ++ tail =
          (processLines uid (lines ++ more)).badLines := by
  intro uid lines
  constructor
  · exact foldl_badLines_le uid lines initState (by simp [initState])
  · intro more
    have h : processLines uid (lines ++ more) =
        List.foldl (stepLine uid) (processLines uid lines) more := by
      simp [processLines, List.foldl_append]
    rw [h]
    exact foldl_badLines_extend uid more (processLines uid lines)

/-! ### File-level error containment (claim C9) -/

lemma dropHeader_map_line_of_le :
    ∀ (n : Nat) (pre : List (List Char)) (evs : List FileEv), n ≤ pre.length →
      dropHeader n (pre.map FileEv.line ++ evs) =
        some ((pre.drop n).map FileEv.line ++ evs) := by
  intro n
  induction n with
  | zero => intro pre evs _; rfl
  | succ m ih =>
    intro pre evs h
    cases pre with
    | nil => simp at h
    | cons p ps =>
      simp only [List.map_cons, List.cons_append, dropHeader, List.drop_succ_cons]
      exact ih ps evs (by simpa using h)

lemma dropHeader_hits_ioError :
    ∀ (n : Nat) (pre : List (List Char)) (post : List FileEv), pre.length < n →
      dropHeader n (pre.map FileEv.line ++ FileEv.ioError :: post) = none := by
  intro n
  induction n with
  | zero => intro pre post h; simp at h
  | succ m ih =>
    intro pre post h
    cases pre with
    | nil => rfl
    | cons p ps =>
      simp only [List.map_cons, List.cons_append, dropHeader]
      exact ih ps post (by simpa using h)

lemma runEvents_hits_ioError (uid : String) :
    ∀ (pre : List (List Char)) (s : FileState) (post : List FileEv),
      runEvents uid s (pre.map FileEv.line ++ FileEv.ioError :: post) = none := by
  intro pre
  induction pre with
  | nil => intro s post; rfl
  | cons p ps ih =>
    intro s post
    simp only [List.map_cons, List.cons_append, runEvents]
    exact ih (stepLine uid s p) post

lemma runEvents_all_lines (uid : String) :
    ∀ (lines : List (List Char)) (s : FileState),
      runEvents uid s (lines.map FileEv.line) = some (List.foldl (stepLine uid) s lines) := by
  intro lines
  induction lines with
  | nil => intro s; rfl
  | cons l rest ih =>
    intro s
    simp only [List.map_cons, runEvents, List.foldl_cons]
    exact ih (stepLine uid s l)

lemma dropHeader_map_line :
    ∀ (n : Nat) (lines : List (List Char)),
      dropHeader n (lines.map FileEv.line) = some ((lines.drop n).map FileEv.line) := by
  intro n
  induction n with
  | zero => intro lines; rfl
  | succ m ih =>
    intro lines
    cases lines with
    | nil => rfl
    | cons l rest =>
      simp only [List.map_cons, dropHeader, List.drop_succ_cons]
      exact ih rest

/-- Claim C9: an error raised while reading a file — at any point, even after
lines have already been parsed — makes `parse_plt_file` return the empty
list, discarding the records already collected for that file; without such
an error the file contributes exactly the records of its post-header
lines. -/
theorem file_error_discards_records :
    (∀ uid (pre : List (List Char)) (post : List FileEv),
      parse_plt_file uid (pre.map FileEv.line ++ FileEv.ioError :: post) = [])
    ∧ (∀ uid (lines : List (List Char)),
      parse_plt_file uid (lines.map FileEv.line) =
        (processLines uid (lines.drop 6)).data) := by
  constructor
  · intro uid pre post
    unfold parse_plt_file
    by_cases h : pre.length < 6
    · simp only [dropHeader_hits_ioError 6 pre post h]
    · have h6 : 6 ≤ pre.length := by omega
      simp only [dropHeader_map_line_of_le 6 pre (FileEv.ioError :: post) h6,
        runEvents_hits_ioError uid (pre.drop 6) initState post]
  · intro uid lines
    unfold parse_plt_file
    simp only [dropHeader_map_line 6 lines,
      runEvents_all_lines uid (lines.drop 6) initState]
    rfl

/-! ### Properties of the sort comparison (claims C4, C5) -/

lemma natListLe_refl : ∀ l : List Nat, natListLe l l = true := by
  intro l
  induction l with
  | nil => rfl
  | cons a as ih => simp [natListLe, Nat.lt_irrefl, ih]

lemma natListLe_total : ∀ a b : List Nat, natListLe a b = true ∨ natListLe b a = true := by
  intro a
  induction a with
  | nil => intro b; exact Or.inl rfl
  | cons x xs ih =>
    intro b
    cases b with
    | nil => exact Or.inr rfl
    | cons y ys =>
      rcases Nat.lt_trichotomy x y with h | h | h
      · exact Or.inl (by simp [natListLe, h])
      · subst h
        rcases ih ys with h2 | h2
        · exact Or.inl (by simp [natListLe, Nat.lt_irrefl, h2])
        · exact Or.inr (by simp [natListLe, Nat.lt_irrefl, h2])
      · exact Or.inr (by simp [natListLe, h])

lemma natListLe_trans :
    ∀ a b c : List Nat, natListLe a b = true → natListLe b c = true →
      natListLe a c = true := by
  intro a
  induction a with
  | nil => intro b c _ _; rfl
  | cons x xs ih =>
    intro b c hab hbc
    cases b with
    | nil => simp [natListLe] at hab
    | cons y ys =>
      cases c with
      | nil => simp [natListLe] at hbc
      | cons z zs =>
        simp only [natListLe] at hab hbc ⊢
        rcases Nat.lt_trichotomy x y with h1 | h1 | h1
        · rcases Nat.lt_trichotomy y z with h2 | h2 | h2
          · simp [Nat.lt_trans h1 h2]
          · subst h2; simp [h1]
          · rw [if_neg (Nat.lt_asymm h2), if_pos h2] at hbc
            exact absurd hbc (by simp)
        · subst h1
          rw [if_neg (Nat.lt_irrefl x), if_neg (Nat.lt_irrefl x)] at hab
          rcases Nat.lt_trichotomy x z with h2 | h2 | h2
          · simp [h2]
          · subst h2
            rw [if_neg (Nat.lt_irrefl x), if_neg (Nat.lt_irrefl x)] at hbc ⊢
            exact ih ys zs hab hbc
          · rw [if_neg (Nat.lt_asymm h2), if_pos h2] at hbc
            exact absurd hbc (by simp)
        · rw [if_neg (Nat.lt_asymm h1), if_pos h1] at hab
          exact absurd hab (by simp)

lemma recLe_iff (a b : PointRecord) :
    recLe a b = true ↔ (a.user_id < b.user_id ∨ (a.user_id = b.user_id ∧
      natListLe (dtKey a.timestamp) (dtKey b.timestamp) = true)) := by
  unfold recLe
  rcases lt_trichotomy a.user_id b.user_id with h | h | h
  · simp [h]
  · simp [h, lt_irrefl]
  · simp [asymm h, h, ne_of_gt h]

lemma recLe_trans (a b c : PointRecord) :
    recLe a b → recLe b c → recLe a c := by
  intro hab hbc
  rw [recLe_iff] at hab hbc ⊢
  rcases hab with h1 | ⟨h1, k1⟩
  · rcases hbc with h2 | ⟨h2, k2⟩
    · exact Or.inl (lt_trans h1 h2)
    · exact Or.inl (h2 ▸ h1)
  · rcases hbc with h2 | ⟨h2, k2⟩
    · exact Or.inl (h1 ▸ h2)
    · exact Or.inr ⟨h1.trans h2, natListLe_trans _ _ _ k1 k2⟩

lemma recLe_total (a b : PointRecord) : recLe a b || recLe b a := by
  rw [Bool.or_eq_true, recLe_iff, recLe_iff]
  rcases lt_trichotomy a.user_id b.user_id with h | h | h
  · exact Or.inl (Or.inl h)
  · rcases natListLe_total (dtKey a.timestamp) (dtKey b.timestamp) with h2 | h2
    · exact Or.inl (Or.inr ⟨h, h2⟩)
    · exact Or.inr (Or.inr ⟨h.symm, h2⟩)
  · exact Or.inr (Or.inl h)

/-- Claim C4: with a nonempty collection, finalization persists the header
row followed by exactly one row per collected record, the rows being a
permutation of the collection sorted by `(user_id, timestamp)`
(owners ascending; timestamps non-decreasing within an owner). -/
theorem finalize_sorted_output :
    ∀ data : List PointRecord, data ≠ [] →
      finalizeDataset data = some ⟨csvHeader, sortRecords data⟩
      ∧ (sortRecords data).length = data.length
      ∧ (sortRecords data).Perm data
      ∧ (sortRecords data).Pairwise (fun a b => recLe a b = true) := by
  intro data h
  refine ⟨?_, ?_, ?_, ?_⟩
  · unfold finalizeDataset
    rw [if_neg (by simpa using h)]
  · exact List.length_mergeSort data
  · exact List.mergeSort_perm data recLe
  · exact List.sorted_mergeSort recLe_trans recLe_total data

/-- Sample records used to witness the collector claims. -/
def recA : PointRecord := ⟨"000", "39.9".data, "116.3".data, "100".data, ⟨2008, 10, 23, 2, 53, 4⟩⟩

/-- A second sample record, same owner, earlier timestamp. -/
def recB : PointRecord := ⟨"000", "40.1".data, "116.4".data, "101".data, ⟨2008, 10, 23, 2, 53, 3⟩⟩

/-- A third sample record that ties with `recA` on owner and timestamp but
differs in its coordinates. -/
def recC : PointRecord := ⟨"000", "41.5".data, "117.0".data, "102".data, ⟨2008, 10, 23, 2, 53, 4⟩⟩

/-- Witness for C4 at a concrete two-record collection. -/
theorem finalize_sorted_output_witness :
    finalizeDataset [recA, recB] = some ⟨csvHeader, sortRecords [recA, recB]⟩
    ∧ (sortRecords [recA, recB]).length = ([recA, recB] : List PointRecord).length
    ∧ (sortRecords [recA, recB]).Perm [recA, recB]
    ∧ (sortRecords [recA, recB]).Pairwise (fun a b => recLe a b = true) :=
  finalize_sorted_output [recA, recB] (by simp)

/-- Claim C5: the finalization sort is stable — two collected records that
tie on both owner and timestamp keep their original relative (encounter)
order in the sorted output. -/
theorem finalize_sort_stable :
    ∀ (data : List PointRecord) (a b : PointRecord),
      a.user_id = b.user_id → dtKey a.timestamp = dtKey b.timestamp →
      List.Sublist [a, b] data → List.Sublist [a, b] (sortRecords data) := by
  intro data a b hu ht hsub
  unfold sortRecords
  refine List.sublist_mergeSort recLe_trans recLe_total ?_ hsub
  refine List.pairwise_cons.mpr ⟨?_, List.pairwise_singleton _ _⟩
  intro x hx
  rw [List.mem_singleton] at hx
  subst hx
  rw [recLe_iff]
  exact Or.inr ⟨hu, ht ▸ natListLe_refl _⟩

/-- Witness for C5: `recA` and `recC` tie on owner and timestamp; their
encounter order inside a concrete collection survives the sort. -/
theorem finalize_sort_stable_witness :
    List.Sublist [recA, recC] (sortRecords [recB, recA, recC]) :=
  finalize_sort_stable [recB, recA, recC] recA recC (by decide) (by decide)
    ((List.Sublist.refl [recA, recC]).cons recB)

/-! ### Layout priority of the timestamp parser (claim C2) -/

lemma matchToks_se_unset :
    ∀ (toks : List Tok) (cs : List Char) (v : Vals),
      Tok.num Field.Se ∉ toks → matchToks toks cs = some v →
      v.se = 0 := by
  intro toks
  induction toks with
  | nil =>
    intro cs v _ h
    unfold matchToks at h
    split at h
    · cases h; rfl
    · exact Option.noConfusion h
  | cons t ts ih =>
    cases t with
    | lit c =>
      intro cs v hf h
      cases cs with
      | nil => exact Option.noConfusion h
      | cons x xs =>
        unfold matchToks at h
        split at h
        · exact ih xs v (fun hm => hf (List.mem_cons_of_mem _ hm)) h
        · exact Option.noConfusion h
    | num f =>
      intro cs v hf h
      unfold matchToks at h
      split at h
      · rcases Option.map_eq_some'.mp h with ⟨w, hw, hv⟩
        have hse := ih _ w (fun hg => hf (List.mem_cons_of_mem _ hg)) hw
        have hfne : f ≠ Field.Se := by
          intro he
          exact hf (he ▸ List.mem_cons_self _ _)
        subst hv
        cases f
        · simp [setField, hse]
        · simp [setField, hse]
        · simp [setField, hse]
        · simp [setField, hse]
        · simp [setField, hse]
        · exact absurd rfl hfne
      · exact Option.noConfusion h

lemma strptimeF_YmdHM_second (ts : List Char) (v : DateTime)
    (h : strptimeF fmtYmdHM ts = some v) : v.second = 0 := by
  unfold strptimeF at h
  rcases Option.bind_eq_some.mp h with ⟨w, hw, hmk⟩
  have hse : w.se = 0 := matchToks_se_unset fmtYmdHM ts w (by decide) hw
  unfold mkDateTime at hmk
  split at hmk
  · cases hmk
    exact hse
  · exact Option.noConfusion hmk

/-- Claim C2: the timestamp parser concatenates the date and time strings
with a single space and tries the four layouts in their fixed priority
order, the first success winning (seconds defaulting to 0 in the fourth,
seconds-less layout); when all four fail, a line that reached timestamp
parsing is skipped with reason bad_timestamp rather than producing a
record. -/
theorem timestamp_layout_priority :
    (∀ date_str time_str,
      try_parse_datetime date_str time_str =
        ((strptimeF fmtYmdHMS (date_str ++ ' ' :: time_str)).orElse fun _ =>
          ((strptimeF fmtYmdHMSslash (date_str ++ ' ' :: time_str)).orElse fun _ =>
            ((strptimeF fmtDmyHMS (date_str ++ ' ' :: time_str)).orElse fun _ =>
              strptimeF fmtYmdHM (date_str ++ ' ' :: time_str)))))
    ∧ (∀ ts v, strptimeF fmtYmdHM ts = some v → v.second = 0)
    ∧ (∀ line uid lat lon alt, ¬(fieldsOf line).length < 6 →
        pyFloat ((fieldsOf line).getD 0 []) = some lat →
        pyFloat ((fieldsOf line).getD 1 []) = some lon →
        altitudeOf (fieldsOf line) = some alt →
        try_parse_datetime ((fieldsOf line).getD ((fieldsOf line).length - 2) [])
          ((fieldsOf line).getD ((fieldsOf line).length - 1) []) = none →
        parseLine line uid = Outcome.skip SkipReason.badTimestamp) := by
  refine ⟨?_, strptimeF_YmdHM_second, ?_⟩
  · intro d t
    cases h1 : strptimeF fmtYmdHMS (d ++ ' ' :: t) with
    | some v => simp [try_parse_datetime, candidates, firstParse, h1, Option.orElse]
    | none =>
      cases h2 : strptimeF fmtYmdHMSslash (d ++ ' ' :: t) with
      | some v => simp [try_parse_datetime, candidates, firstParse, h1, h2, Option.orElse]
      | none =>
        cases h3 : strptimeF fmtDmyHMS (d ++ ' ' :: t) with
        | some v =>
          simp [try_parse_datetime, candidates, firstParse, h1, h2, h3, Option.orElse]
        | none =>
          cases h4 : strptimeF fmtYmdHM (d ++ ' ' :: t) with
          | some v =>
            simp [try_parse_datetime, candidates, firstParse, h1, h2, h3, h4, Option.orElse]
          | none =>
            simp [try_parse_datetime, candidates, firstParse, h1, h2, h3, h4, Option.orElse]
  · intro line uid lat lon alt h6 hlat hlon halt hts
    exact parseLine_skip_badTimestamp line uid lat lon alt h6 hlat hlon halt hts

/-- Witness for C2: a line whose trailing date/time pair matches none of the
four layouts is skipped with reason bad_timestamp. -/
theorem timestamp_layout_priority_witness :
    parseLine "1.0,2.0,0,50,23/10/2008,02-53-04".data "007" =
      Outcome.skip SkipReason.badTimestamp :=
  timestamp_layout_priority.2.2 "1.0,2.0,0,50,23/10/2008,02-53-04".data "007"
    "1.0".data "2.0".data "50".data (by decide) (by decide) (by decide) (by decide)
    (by decide)

/-! ### Rendering instants in the four layouts (claim C6) -/

/-- The decimal digit character for `n % 10` (zero-padded rendering uses
this for every position). -/
def digitChar (n : Nat) : Char := Char.ofNat (48 + n % 10)

/-- Two-digit zero-padded rendering (`%m`, `%d`, `%H`, `%M`, `%S`). -/
def renderNat2 (n : Nat) : List Char := [digitChar (n / 10), digitChar n]

/-- Four-digit zero-padded rendering (`%Y`). -/
def renderNat4 (n : Nat) : List Char :=
  [digitChar (n / 1000), digitChar (n / 100), digitChar (n / 10), digitChar n]

/-- Rendering in layout `YYYY-MM-DD`. -/
def renderDateYmd (t : DateTime) : List Char :=
  renderNat4 t.year ++ '-' :: (renderNat2 t.month ++ '-' :: renderNat2 t.day)

/-- Rendering in layout `YYYY/MM/DD`. -/
def renderDateYmdSlash (t : DateTime) : List Char :=
  renderNat4 t.year ++ '/' :: (renderNat2 t.month ++ '/' :: renderNat2 t.day)

/-- Rendering in layout `DD-MM-YYYY`. -/
def renderDateDmy (t : DateTime) : List Char :=
  renderNat2 t.day ++ '-' :: (renderNat2 t.month ++ '-' :: renderNat4 t.year)

/-- Rendering in layout `HH:MM:SS`. -/
def renderTimeHMS (t : DateTime) : List Char :=
  renderNat2 t.hour ++ ':' :: (renderNat2 t.minute ++ ':' :: renderNat2 t.second)

/-- Rendering in layout `HH:MM` (the seconds are not rendered). -/
def renderTimeHM (t : DateTime) : List Char :=
  renderNat2 t.hour ++ ':' :: renderNat2 t.minute

lemma digit_cases (n : Nat) :
    n % 10 = 0 ∨ n % 10 = 1 ∨ n % 10 = 2 ∨ n % 10 = 3 ∨ n % 10 = 4 ∨
    n % 10 = 5 ∨ n % 10 = 6 ∨ n % 10 = 7 ∨ n % 10 = 8 ∨ n % 10 = 9 := by
  omega

lemma digitChar_isDigit (n : Nat) : (digitChar n).isDigit = true := by
  unfold digitChar
  rcases digit_cases n with h | h | h | h | h | h | h | h | h | h <;> rw [h] <;> decide

lemma digitVal_digitChar (n : Nat) : digitVal (digitChar n) = n % 10 := by
  unfold digitChar digitVal
  rcases digit_cases n with h | h | h | h | h | h | h | h | h | h <;> rw [h] <;> decide

lemma renderNat2_all_digits (n : Nat) : ∀ c ∈ renderNat2 n, c.isDigit = true := by
  intro c hc
  simp only [renderNat2, List.mem_cons, List.mem_singleton, List.not_mem_nil, or_false] at hc
  rcases hc with rfl | rfl <;> exact digitChar_isDigit _

lemma renderNat4_all_digits (n : Nat) : ∀ c ∈ renderNat4 n, c.isDigit = true := by
  intro c hc
  simp only [renderNat4, List.mem_cons, List.not_mem_nil, or_false] at hc
  rcases hc with rfl | rfl | rfl | rfl <;> exact digitChar_isDigit _

lemma digitsToNat_renderNat2 (n : Nat) (h : n ≤ 99) : digitsToNat (renderNat2 n) = n := by
  simp only [digitsToNat, renderNat2, List.foldl_cons, List.foldl_nil, digitVal_digitChar]
  omega

lemma digitsToNat_renderNat4 (n : Nat) (h : n ≤ 9999) :
    digitsToNat (renderNat4 n) = n := by
  simp only [digitsToNat, renderNat4, List.foldl_cons, List.foldl_nil, digitVal_digitChar]
  omega

lemma digitRun_append (l r : List Char) (hl : ∀ c ∈ l, c.isDigit = true)
    (hr : ∀ c, r.head? = some c → c.isDigit = false) :
    digitRun (l ++ r) = (l, r) := by
  induction l with
  | nil =>
    cases r with
    | nil => rfl
    | cons x xs =>
      have hx : x.isDigit = false := hr x rfl
      simp [digitRun, hx]
  | cons c cs ih =>
    have hc : c.isDigit = true := hl c (List.mem_cons_self _ _)
    simp [digitRun, hc, ih (fun d hd => hl d (List.mem_cons_of_mem _ hd))]

lemma head_sep {x : Char} (xs : List Char) (hx : x.isDigit = false) :
    ∀ c, (x :: xs : List Char).head? = some c → c.isDigit = false := by
  intro c hc
  simp only [List.head?_cons, Option.some_inj] at hc
  exact hc ▸ hx

lemma matchToks_num4 (f : Field) (ts : List Tok) (n : Nat) (rest : List Char)
    (hn : n ≤ 9999) (hf : fieldLenOK f 4 = true) (hv : fieldValOK f n = true)
    (hrest : ∀ c, rest.head? = some c → c.isDigit = false) :
    matchToks (Tok.num f :: ts) (renderNat4 n ++ rest) =
      (matchToks ts rest).map (setField f n) := by
  have hdr : digitRun (renderNat4 n ++ rest) = (renderNat4 n, rest) :=
    digitRun_append _ _ (renderNat4_all_digits n) hrest
  have hlen : (renderNat4 n).length = 4 := rfl
  have hval : digitsToNat (renderNat4 n) = n := digitsToNat_renderNat4 n hn
  conv_lhs => rw [matchToks]
  simp only [hdr, hlen, hval, hf, hv, Bool.and_self, if_true]

lemma matchToks_num2 (f : Field) (ts : List Tok) (n : Nat) (rest : List Char)
    (hn : n ≤ 99) (hf : fieldLenOK f 2 = true) (hv : fieldValOK f n = true)
    (hrest : ∀ c, rest.head? = some c → c.isDigit = false) :
    matchToks (Tok.num f :: ts) (renderNat2 n ++ rest) =
      (matchToks ts rest).map (setField f n) := by
  have hdr : digitRun (renderNat2 n ++ rest) = (renderNat2 n, rest) :=
    digitRun_append _ _ (renderNat2_all_digits n) hrest
  have hlen : (renderNat2 n).length = 2 := rfl
  have hval : digitsToNat (renderNat2 n) = n := digitsToNat_renderNat2 n hn
  conv_lhs => rw [matchToks]
  simp only [hdr, hlen, hval, hf, hv, Bool.and_self, if_true]

lemma matchToks_lit_cons (c : Char) (ts : List Tok) (xs : List Char) :
    matchToks (Tok.lit c :: ts) (c :: xs) = matchToks ts xs := by
  conv_lhs => rw [matchToks]
  rw [if_pos rfl]

lemma matchToks_lit_ne (c x : Char) (ts : List Tok) (xs : List Char) (h : x ≠ c) :
    matchToks (Tok.lit c :: ts) (x :: xs) = none := by
  conv_lhs => rw [matchToks]
  rw [if_neg h]

lemma daysInMonth_le (y m : Nat) : daysInMonth y m ≤ 31 := by
  unfold daysInMonth
  split_ifs <;> omega

lemma matchToks_num2_nil (f : Field) (ts : List Tok) (n : Nat)
    (hn : n ≤ 99) (hf : fieldLenOK f 2 = true) (hv : fieldValOK f n = true) :
    matchToks (Tok.num f :: ts) (renderNat2 n) = (matchToks ts []).map (setField f n) := by
  have h := matchToks_num2 f ts n [] hn hf hv (fun c hc => Option.noConfusion hc)
  simpa using h

lemma matchToks_num_on2_len_fail (f : Field) (ts : List Tok) (n : Nat) (rest : List Char)
    (hfail : fieldLenOK f 2 = false)
    (hrest : ∀ c, rest.head? = some c → c.isDigit = false) :
    matchToks (Tok.num f :: ts) (renderNat2 n ++ rest) = none := by
  have hdr : digitRun (renderNat2 n ++ rest) = (renderNat2 n, rest) :=
    digitRun_append _ _ (renderNat2_all_digits n) hrest
  have hlen : (renderNat2 n).length = 2 := rfl
  conv_lhs => rw [matchToks]
  simp only [hdr, hlen, hfail, Bool.false_and, Bool.false_eq_true, if_false]

lemma matchToks_num_on4_len_fail (f : Field) (ts : List Tok) (n : Nat) (rest : List Char)
    (hfail : fieldLenOK f 4 = false)
    (hrest : ∀ c, rest.head? = some c → c.isDigit = false) :
    matchToks (Tok.num f :: ts) (renderNat4 n ++ rest) = none := by
  have hdr : digitRun (renderNat4 n ++ rest) = (renderNat4 n, rest) :=
    digitRun_append _ _ (renderNat4_all_digits n) hrest
  have hlen : (renderNat4 n).length = 4 := rfl
  conv_lhs => rw [matchToks]
  simp only [hdr, hlen, hfail, Bool.false_and, Bool.false_eq_true, if_false]

lemma strptimeF_fmt1_render (t : DateTime) (hy1 : 1 ≤ t.year) (hy : t.year ≤ 9999)
    (hmo1 : 1 ≤ t.month) (hmo : t.month ≤ 12) (hd1 : 1 ≤ t.day)
    (hd : t.day ≤ daysInMonth t.year t.month)
    (hh : t.hour ≤ 23) (hmi : t.minute ≤ 59) (hse : t.second ≤ 59) :
    strptimeF fmtYmdHMS (renderDateYmd t ++ ' ' :: renderTimeHMS t) = some t := by
  obtain ⟨y, mo, d, h, mi, se⟩ := t
  simp only at hy1 hy hmo1 hmo hd1 hd hh hmi hse
  have hd31 : d ≤ 31 := le_trans hd (daysInMonth_le y mo)
  unfold strptimeF fmtYmdHMS renderDateYmd renderTimeHMS
  simp only [List.append_assoc, List.cons_append]
  rw [matchToks_num4 .Y _ y _ hy (by decide) (by simp [fieldValOK]; omega)
    (head_sep _ (by decide))]
  rw [matchToks_lit_cons]
  rw [matchToks_num2 .Mo _ mo _ (by omega) (by decide) (by simp [fieldValOK]; omega)
    (head_sep _ (by decide))]
  rw [matchToks_lit_cons]
  rw [matchToks_num2 .D _ d _ (by omega) (by decide) (by simp [fieldValOK]; omega)
    (head_sep _ (by decide))]
  rw [matchToks_lit_cons]
  rw [matchToks_num2 .H _ h _ (by omega) (by decide) (by simp [fieldValOK]; omega)
    (head_sep _ (by decide))]
  rw [matchToks_lit_cons]
  rw [matchToks_num2 .Mi _ mi _ (by omega) (by decide) (by simp [fieldValOK]; omega)
    (head_sep _ (by decide))]
  rw [matchToks_lit_cons]
  rw [matchToks_num2_nil .Se _ se (by omega) (by decide) (by simp [fieldValOK]; omega)]
  simp only [matchToks, List.isEmpty_nil, if_true, Option.map_some', Option.some_bind,
    setField, valsDefault]
  unfold mkDateTime
  rw [if_pos]
  exact ⟨hy1, hy, hmo1, hmo, hd1, hd, hh, hmi, hse⟩

lemma strptimeF_fmt2_render (t : DateTime) (hy1 : 1 ≤ t.year) (hy : t.year ≤ 9999)
    (hmo1 : 1 ≤ t.month) (hmo : t.month ≤ 12) (hd1 : 1 ≤ t.day)
    (hd : t.day ≤ daysInMonth t.year t.month)
    (hh : t.hour ≤ 23) (hmi : t.minute ≤ 59) (hse : t.second ≤ 59) :
    strptimeF fmtYmdHMSslash (renderDateYmdSlash t ++ ' ' :: renderTimeHMS t) = some t := by
  obtain ⟨y, mo, d, h, mi, se⟩ := t
  simp only at hy1 hy hmo1 hmo hd1 hd hh hmi hse
  have hd31 : d ≤ 31 := le_trans hd (daysInMonth_le y mo)
  unfold strptimeF fmtYmdHMSslash renderDateYmdSlash renderTimeHMS
  simp only [List.append_assoc, List.cons_append]
  rw [matchToks_num4 .Y _ y _ hy (by decide) (by simp [fieldValOK]; omega)
    (head_sep _ (by decide))]
  rw [matchToks_lit_cons]
  rw [matchToks_num2 .Mo _ mo _ (by omega) (by decide) (by simp [fieldValOK]; omega)
    (head_sep _ (by decide))]
  rw [matchToks_lit_cons]
  rw [matchToks_num2 .D _ d _ (by omega) (by decide) (by simp [fieldValOK]; omega)
    (head_sep _ (by decide))]
  rw [matchToks_lit_cons]
  rw [matchToks_num2 .H _ h _ (by omega) (by decide) (by simp [fieldValOK]; omega)
    (head_sep _ (by decide))]
  rw [matchToks_lit_cons]
  rw [matchToks_num2 .Mi _ mi _ (by omega) (by decide) (by simp [fieldValOK]; omega)
    (head_sep _ (by decide))]
  rw [matchToks_lit_cons]
  rw [matchToks_num2_nil .Se _ se (by omega) (by decide) (by simp [fieldValOK]; omega)]
  simp only [matchToks, List.isEmpty_nil, if_true, Option.map_some', Option.some_bind,
    setField, valsDefault]
  unfold mkDateTime
  rw [if_pos]
  exact ⟨hy1, hy, hmo1, hmo, hd1, hd, hh, hmi, hse⟩

lemma strptimeF_fmt3_render (t : DateTime) (hy1 : 1 ≤ t.year) (hy : t.year ≤ 9999)
    (hmo1 : 1 ≤ t.month) (hmo : t.month ≤ 12) (hd1 : 1 ≤ t.day)
    (hd : t.day ≤ daysInMonth t.year t.month)
    (hh : t.hour ≤ 23) (hmi : t.minute ≤ 59) (hse : t.second ≤ 59) :
    strptimeF fmtDmyHMS (renderDateDmy t ++ ' ' :: renderTimeHMS t) = some t := by
  obtain ⟨y, mo, d, h, mi, se⟩ := t
  simp only at hy1 hy hmo1 hmo hd1 hd hh hmi hse
  have hd31 : d ≤ 31 := le_trans hd (daysInMonth_le y mo)
  unfold strptimeF fmtDmyHMS renderDateDmy renderTimeHMS
  simp only [List.append_assoc, List.cons_append]
  rw [matchToks_num2 .D _ d _ (by omega) (by decide) (by simp [fieldValOK]; omega)
    (head_sep _ (by decide))]
  rw [matchToks_lit_cons]
  rw [matchToks_num2 .Mo _ mo _ (by omega) (by decide) (by simp [fieldValOK]; omega)
    (head_sep _ (by decide))]
  rw [matchToks_lit_cons]
  rw [matchToks_num4 .Y _ y _ hy (by decide) (by simp [fieldValOK]; omega)
    (head_sep _ (by decide))]
  rw [matchToks_lit_cons]
  rw [matchToks_num2 .H _ h _ (by omega) (by decide) (by simp [fieldValOK]; omega)
    (head_sep _ (by decide))]
  rw [matchToks_lit_cons]
  rw [matchToks_num2 .Mi _ mi _ (by omega) (by decide) (by simp [fieldValOK]; omega)
    (head_sep _ (by decide))]
  rw [matchToks_lit_cons]
  rw [matchToks_num2_nil .Se _ se (by omega) (by decide) (by simp [fieldValOK]; omega)]
  simp only [matchToks, List.isEmpty_nil, if_true, Option.map_some', Option.some_bind,
    setField, valsDefault]
  unfold mkDateTime
  rw [if_pos]
  exact ⟨hy1, hy, hmo1, hmo, hd1, hd, hh, hmi, hse⟩

lemma strptimeF_fmt4_render (t : DateTime) (hy1 : 1 ≤ t.year) (hy : t.year ≤ 9999)
    (hmo1 : 1 ≤ t.month) (hmo : t.month ≤ 12) (hd1 : 1 ≤ t.day)
    (hd : t.day ≤ daysInMonth t.year t.month)
    (hh : t.hour ≤ 23) (hmi : t.minute ≤ 59) :
    strptimeF fmtYmdHM (renderDateYmd t ++ ' ' :: renderTimeHM t) =
      some ⟨t.year, t.month, t.day, t.hour, t.minute, 0⟩ := by
  obtain ⟨y, mo, d, h, mi, se⟩ := t
  simp only at hy1 hy hmo1 hmo hd1 hd hh hmi
  have hd31 : d ≤ 31 := le_trans hd (daysInMonth_le y mo)
  unfold strptimeF fmtYmdHM renderDateYmd renderTimeHM
  simp only [List.append_assoc, List.cons_append]
  rw [matchToks_num4 .Y _ y _ hy (by decide) (by simp [fieldValOK]; omega)
    (head_sep _ (by decide))]
  rw [matchToks_lit_cons]
  rw [matchToks_num2 .Mo _ mo _ (by omega) (by decide) (by simp [fieldValOK]; omega)
    (head_sep _ (by decide))]
  rw [matchToks_lit_cons]
  rw [matchToks_num2 .D _ d _ (by omega) (by decide) (by simp [fieldValOK]; omega)
    (head_sep _ (by decide))]
  rw [matchToks_lit_cons]
  rw [matchToks_num2 .H _ h _ (by omega) (by decide) (by simp [fieldValOK]; omega)
    (head_sep _ (by decide))]
  rw [matchToks_lit_cons]
  rw [matchToks_num2_nil .Mi _ mi (by omega) (by decide) (by simp [fieldValOK]; omega)]
  simp only [matchToks, List.isEmpty_nil, if_true, Option.map_some', Option.some_bind,
    setField, valsDefault]
  unfold mkDateTime
  rw [if_pos]
  exact ⟨hy1, hy, hmo1, hmo, hd1, hd, hh, hmi, Nat.zero_le _⟩

lemma strptimeF_fmt1_on_slash (t : DateTime) (hy : t.year ≤ 9999) :
    strptimeF fmtYmdHMS (renderDateYmdSlash t ++ ' ' :: renderTimeHMS t) = none := by
  obtain ⟨y, mo, d, h, mi, se⟩ := t
  simp only at hy
  unfold strptimeF fmtYmdHMS renderDateYmdSlash renderTimeHMS
  simp only [List.append_assoc, List.cons_append]
  rw [matchToks_num4 .Y _ y _ hy (by decide) (by simp [fieldValOK]; omega)
    (head_sep _ (by decide))]
  rw [matchToks_lit_ne '-' '/' _ _ (by decide)]
  rfl

lemma strptimeF_fmt1_on_dmy (t : DateTime) :
    strptimeF fmtYmdHMS (renderDateDmy t ++ ' ' :: renderTimeHMS t) = none := by
  obtain ⟨y, mo, d, h, mi, se⟩ := t
  unfold strptimeF fmtYmdHMS renderDateDmy renderTimeHMS
  simp only [List.append_assoc, List.cons_append]
  rw [matchToks_num_on2_len_fail .Y _ d _ (by decide) (head_sep _ (by decide))]
  rfl

lemma strptimeF_fmt1_on_hm (t : DateTime) (hy : t.year ≤ 9999)
    (hmo1 : 1 ≤ t.month) (hmo : t.month ≤ 12) (hd1 : 1 ≤ t.day) (hd31 : t.day ≤ 31)
    (hh : t.hour ≤ 23) (hmi : t.minute ≤ 59) :
    strptimeF fmtYmdHMS (renderDateYmd t ++ ' ' :: renderTimeHM t) = none := by
  obtain ⟨y, mo, d, h, mi, se⟩ := t
  simp only at hy hmo1 hmo hd1 hd31 hh hmi
  unfold strptimeF fmtYmdHMS renderDateYmd renderTimeHM
  simp only [List.append_assoc, List.cons_append]
  rw [matchToks_num4 .Y _ y _ hy (by decide) (by simp [fieldValOK]; omega)
    (head_sep _ (by decide))]
  rw [matchToks_lit_cons]
  rw [matchToks_num2 .Mo _ mo _ (by omega) (by decide) (by simp [fieldValOK]; omega)
    (head_sep _ (by decide))]
  rw [matchToks_lit_cons]
  rw [matchToks_num2 .D _ d _ (by omega) (by decide) (by simp [fieldValOK]; omega)
    (head_sep _ (by decide))]
  rw [matchToks_lit_cons]
  rw [matchToks_num2 .H _ h _ (by omega) (by decide) (by simp [fieldValOK]; omega)
    (head_sep _ (by decide))]
  rw [matchToks_lit_cons]
  rw [matchToks_num2_nil .Mi _ mi (by omega) (by decide) (by simp [fieldValOK]; omega)]
  rfl

lemma strptimeF_fmt2_on_dmy (t : DateTime) :
    strptimeF fmtYmdHMSslash (renderDateDmy t ++ ' ' :: renderTimeHMS t) = none := by
  obtain ⟨y, mo, d, h, mi, se⟩ := t
  unfold strptimeF fmtYmdHMSslash renderDateDmy renderTimeHMS
  simp only [List.append_assoc, List.cons_append]
  rw [matchToks_num_on2_len_fail .Y _ d _ (by decide) (head_sep _ (by decide))]
  rfl

lemma strptimeF_fmt2_on_ymd_hm (t : DateTime) (hy : t.year ≤ 9999) :
    strptimeF fmtYmdHMSslash (renderDateYmd t ++ ' ' :: renderTimeHM t) = none := by
  obtain ⟨y, mo, d, h, mi, se⟩ := t
  simp only at hy
  unfold strptimeF fmtYmdHMSslash renderDateYmd renderTimeHM
  simp only [List.append_assoc, List.cons_append]
  rw [matchToks_num4 .Y _ y _ hy (by decide) (by simp [fieldValOK]; omega)
    (head_sep _ (by decide))]
  rw [matchToks_lit_ne '/' '-' _ _ (by decide)]
  rfl

lemma strptimeF_fmt3_on_ymd_hm (t : DateTime) :
    strptimeF fmtDmyHMS (renderDateYmd t ++ ' ' :: renderTimeHM t) = none := by
  obtain ⟨y, mo, d, h, mi, se⟩ := t
  unfold strptimeF fmtDmyHMS renderDateYmd renderTimeHM
  simp only [List.append_assoc, List.cons_append]
  rw [matchToks_num_on4_len_fail .D _ y _ (by decide) (head_sep _ (by decide))]
  rfl

/-- Counterexample to claim C6 as stated: for the instant
2008-10-23 02:53:04, rendering in the fourth (seconds-less) layout and
re-parsing yields 02:53:00, not the original instant, while the first
layout round-trips exactly — the four layouts do not all parse to the
identical instant. -/
theorem cross_format_counterexample :
    try_parse_datetime (renderDateYmd ⟨2008, 10, 23, 2, 53, 4⟩)
        (renderTimeHMS ⟨2008, 10, 23, 2, 53, 4⟩) =
      some ⟨2008, 10, 23, 2, 53, 4⟩
    ∧ try_parse_datetime (renderDateYmd ⟨2008, 10, 23, 2, 53, 4⟩)
        (renderTimeHM ⟨2008, 10, 23, 2, 53, 4⟩) =
      some ⟨2008, 10, 23, 2, 53, 0⟩
    ∧ some (⟨2008, 10, 23, 2, 53, 0⟩ : DateTime) ≠ some ⟨2008, 10, 23, 2, 53, 4⟩ :=
  ⟨by decide, by decide, by decide⟩

/-- Claim C6 (amended): for any valid calendar instant, rendering in each of
the three layouts that carry seconds and re-parsing yields the identical
instant; rendering in the fourth, seconds-less layout yields the same
instant with its seconds replaced by 0 — hence all four renderings parse to
the identical instant exactly when the seconds are 0. -/
theorem cross_format_equivalence :
    ∀ t : DateTime, 1 ≤ t.year → t.year ≤ 9999 → 1 ≤ t.month → t.month ≤ 12 →
      1 ≤ t.day → t.day ≤ daysInMonth t.year t.month →
      t.hour ≤ 23 → t.minute ≤ 59 → t.second ≤ 59 →
      try_parse_datetime (renderDateYmd t) (renderTimeHMS t) = some t
      ∧ try_parse_datetime (renderDateYmdSlash t) (renderTimeHMS t) = some t
      ∧ try_parse_datetime (renderDateDmy t) (renderTimeHMS t) = some t
      ∧ try_parse_datetime (renderDateYmd t) (renderTimeHM t) =
          some ⟨t.year, t.month, t.day, t.hour, t.minute, 0⟩ := by
  intro t hy1 hy hmo1 hmo hd1 hd hh hmi hse
  have hd31 : t.day ≤ 31 := le_trans hd (daysInMonth_le t.year t.month)
  refine ⟨?_, ?_, ?_, ?_⟩
  · simp [try_parse_datetime, candidates, firstParse,
      strptimeF_fmt1_render t hy1 hy hmo1 hmo hd1 hd hh hmi hse]
  · simp [try_parse_datetime, candidates, firstParse,
      strptimeF_fmt1_on_slash t hy,
      strptimeF_fmt2_render t hy1 hy hmo1 hmo hd1 hd hh hmi hse]
  · simp [try_parse_datetime, candidates, firstParse,
      strptimeF_fmt1_on_dmy t, strptimeF_fmt2_on_dmy t,
      strptimeF_fmt3_render t hy1 hy hmo1 hmo hd1 hd hh hmi hse]
  · simp [try_parse_datetime, candidates, firstParse,
      strptimeF_fmt1_on_hm t hy hmo1 hmo hd1 hd31 hh hmi,
      strptimeF_fmt2_on_ymd_hm t hy, strptimeF_fmt3_on_ymd_hm t,
      strptimeF_fmt4_render t hy1 hy hmo1 hmo hd1 hd hh hmi]

/-- Witness for C6 (amended) at the concrete instant 2008-10-23 02:53:04. -/
theorem cross_format_equivalence_witness :
    try_parse_datetime (renderDateYmd ⟨2008, 10, 23, 2, 53, 4⟩)
        (renderTimeHMS ⟨2008, 10, 23, 2, 53, 4⟩) = some ⟨2008, 10, 23, 2, 53, 4⟩
    ∧ try_parse_datetime (renderDateYmdSlash ⟨2008, 10, 23, 2, 53, 4⟩)
        (renderTimeHMS ⟨2008, 10, 23, 2, 53, 4⟩) = some ⟨2008, 10, 23, 2, 53, 4⟩
    ∧ try_parse_datetime (renderDateDmy ⟨2008, 10, 23, 2, 53, 4⟩)
        (renderTimeHMS ⟨2008, 10, 23, 2, 53, 4⟩) = some ⟨2008, 10, 23, 2, 53, 4⟩
    ∧ try_parse_datetime (renderDateYmd ⟨2008, 10, 23, 2, 53, 4⟩)
        (renderTimeHM ⟨2008, 10, 23, 2, 53, 4⟩) = some ⟨2008, 10, 23, 2, 53, 0⟩ :=
  cross_format_equivalence ⟨2008, 10, 23, 2, 53, 4⟩ (by decide) (by decide) (by decide)
    (by decide) (by decide) (by decide) (by decide) (by decide) (by decide)

end GeoLife
